import Mathlib

/-!
Shallow embedding of the Valkyrie build-system disk-image pipeline:
the size parser of scripts/scons/utility.py and the disk-image
operations of scripts/scons/disk.py, together with theorems checking
the specification's claims about them.

External command invocations (parted, mkfs, losetup, mount, cp) are
modelled as data: a function produces the list of commands it would
issue, or an explicit action value carrying the arguments passed to
the tool.  Failure of an external tool is injected through explicit
boolean/function parameters, matching the sh library's behaviour of
raising an exception when a command exits non-zero.
-/

deriving instance DecidableEq for Except

namespace Valkyrie

/-! Embedding of ParseSize (scripts/scons/utility.py, lines 14-27).

The Python code matches the anchored-at-start regex
([0-9\.]+)([kmg]?) with IGNORECASE, converts group 1 with
decimal.Decimal, multiplies by the suffix multiplier, and truncates
with int().  Decimal construction from a string is exact (the
constructor never rounds), and a Decimal is a coefficient times a
power of ten, embedded here as a rational whose denominator is that
power of ten.  The module never touches decimal.getcontext(), so the
in-place multiplication runs under the default context: the exact
coefficient product is rounded to 28 significant digits with
ROUND_HALF_EVEN whenever it is longer, which is modelled explicitly
below.  int() on a Decimal truncates toward zero, embedded as Int.tdiv
of numerator by denominator. -/

/-- Characters matched by the regex class [0-9\.]. -/
def isSizeChar (c : Char) : Bool := c.isDigit || c = '.'

/-- Value of a digit string read in base 10. -/
def natOfDigits (ds : List Char) : Nat :=
  ds.foldl (fun n c => 10 * n + (c.toNat - 48)) 0

/-- Digits of the numeric token before the decimal point. -/
def intPart (cs : List Char) : List Char := cs.takeWhile (fun c => c ≠ '.')

/-- Digits of the numeric token after the decimal point. -/
def fracPart (cs : List Char) : List Char := (cs.dropWhile (fun c => c ≠ '.')).drop 1

/-- Whether Decimal(s) succeeds on a string over [0-9.]: at most one
dot and at least one digit (otherwise decimal.InvalidOperation). -/
def decimalOk (cs : List Char) : Bool :=
  (cs.filter (fun c => c = '.')).length ≤ 1 && cs.any Char.isDigit

/-- A Python Decimal as built from a digit string: a coefficient and
the number of fractional digits (the value is coeff times ten to the
minus fexp).  Decimal() construction is exact. -/
structure PyDecimal where
  coeff : Nat
  fexp : Nat
deriving DecidableEq

/-- Decimal(s) for a valid decimal string over [0-9.]: the coefficient
is the digits read as an integer, the exponent the count of digits
after the dot. -/
def decimalOf (cs : List Char) : PyDecimal :=
  ⟨natOfDigits (intPart cs ++ fracPart cs), (fracPart cs).length⟩

/-- Exact rational value of a PyDecimal. -/
def PyDecimal.val (d : PyDecimal) : ℚ := (d.coeff : ℚ) / (10 : ℚ) ^ d.fexp

/-- Python int() applied to the (rational) value of a Decimal:
truncation toward zero. -/
def pyInt (q : ℚ) : ℤ := Int.tdiv q.num (q.den : ℤ)

/-- Decimal digit count of a coefficient (len of its digit string),
computed with explicit fuel so it evaluates by kernel reduction. -/
def digitsLenAux : Nat → Nat → Nat
  | _, 0 => 1
  | c, fuel + 1 => if c < 10 then 1 else digitsLenAux (c / 10) fuel + 1

/-- Number of decimal digits of a natural number (1 for 0). -/
def decDigits (c : Nat) : Nat := digitsLenAux c c

/-- Drop p trailing decimal digits of c, rounding half to even — the
default decimal-context rounding. -/
def roundHalfEvenDiv (c p : Nat) : Nat :=
  if 2 * (c % 10 ^ p) > 10 ^ p then c / 10 ^ p + 1
  else if 2 * (c % 10 ^ p) < 10 ^ p then c / 10 ^ p
  else if c / 10 ^ p % 2 = 1 then c / 10 ^ p + 1
  else c / 10 ^ p

/-- Value of d * Decimal(m) under the default decimal context
(precision 28, ROUND_HALF_EVEN): the exact coefficient product is kept
when it has at most 28 digits and otherwise rounded back to 28
significant digits, the dropped digits moving into the exponent. -/
def decMul (d : PyDecimal) (m : Nat) : ℚ :=
  if d.coeff * m < 10 ^ 28 then ((d.coeff * m : Nat) : ℚ) / (10 : ℚ) ^ d.fexp
  else
    ((roundHalfEvenDiv (d.coeff * m) (decDigits (d.coeff * m) - 28) : Nat) : ℚ)
      * (10 : ℚ) ^ (decDigits (d.coeff * m) - 28) / (10 : ℚ) ^ d.fexp

/-- Errors ParseSize can raise: ValueError when the regex does not
match, decimal.InvalidOperation propagating out of Decimal(). -/
inductive SizeError where
  | invalidSize
  | invalidDecimal
deriving DecidableEq

/-- Longest prefix of the input over [0-9\.] — what the greedy first
regex group captures. -/
def numTok (s : String) : List Char := s.data.takeWhile isSizeChar

/-- Characters remaining after the first regex group. -/
def restTok (s : String) : List Char := s.data.drop (numTok s).length

/-- Python str.lower() restricted to the characters re.IGNORECASE can
fold into [kmg]: ASCII lowering plus the Kelvin sign U+212A, which
case-folds to k. -/
def pyLower (c : Char) : Char := if c = 'K' then 'k' else c.toLower

/-- The optional suffix group [kmg]? with IGNORECASE, already
lowercased as by group(2).lower(); anything further is ignored since
the regex is not anchored at the end. -/
def suffixChar (rest : List Char) : Option Char :=
  match rest with
  | [] => none
  | c :: _ =>
    if pyLower c = 'k' ∨ pyLower c = 'm' ∨ pyLower c = 'g' then some (pyLower c)
    else none

/-- Exact multiplier table k=1024, m=1024^2, g=1024^3; no suffix
leaves the value unchanged.  Used to state exact-value properties; the
program applies it through the rounding Decimal multiply decMul. -/
def multValue (suffix : Option Char) : ℚ :=
  match suffix with
  | some 'k' => 1024
  | some 'm' => 1024 ^ 2
  | some 'g' => 1024 ^ 3
  | _ => 1

/-- Natural-number view of the multiplier table (1 when no suffix),
used to state when a coefficient product stays within the context
precision. -/
def multNat (suffix : Option Char) : Nat :=
  match suffix with
  | some 'k' => 1024
  | some 'm' => 1024 ^ 2
  | some 'g' => 1024 ^ 3
  | _ => 1

/-- The multiplication step of ParseSize: when the suffix group is one
of k/m/g (after lowering it always is, when present), the Decimal is
multiplied by the table entry under the default context; with no
suffix the value is left untouched and stays exact. -/
def applyMult (d : PyDecimal) (suffix : Option Char) : ℚ :=
  match suffix with
  | some 'k' => decMul d 1024
  | some 'm' => decMul d (1024 ^ 2)
  | some 'g' => decMul d (1024 ^ 3)
  | _ => d.val

/-- Embedding of ParseSize. -/
def ParseSize (s : String) : Except SizeError ℤ :=
  if (numTok s).length = 0 then .error .invalidSize
  else if decimalOk (numTok s) then
    .ok (pyInt (applyMult (decimalOf (numTok s)) (suffixChar (restTok s))))
  else .error .invalidDecimal

/-- Rational value the program holds right before int() truncation
(context rounding of the multiply included). -/
def parsedValue (s : String) : ℚ :=
  applyMult (decimalOf (numTok s)) (suffixChar (restTok s))

/-- Exact rational value of the parsed expression, with the multiplier
applied exactly — what the program would hold before int() if Decimal
arithmetic never rounded. -/
def exactValue (s : String) : ℚ :=
  (decimalOf (numTok s)).val * multValue (suffixChar (restTok s))

/-! Embedding of scripts/scons/disk.py. -/

/-- One entry of the FS_CONFIG table. -/
structure FsConfig where
  parted_type : String
  mkfs_cmd : String
  fat_size : Option String
  reserved_extra : Option Nat
  supports_symlinks : Bool
deriving DecidableEq

/-- The FS_CONFIG dictionary (disk.py lines 23-50). -/
def FS_CONFIG (fs : String) : Option FsConfig :=
  if fs = "fat12" then some ⟨"fat12", "mkfs.fat", some "12", some 1, false⟩
  else if fs = "fat16" then some ⟨"fat16", "mkfs.fat", some "16", some 1, false⟩
  else if fs = "fat32" then some ⟨"fat32", "mkfs.fat", some "32", some 2, false⟩
  else if fs = "ext2" then some ⟨"ext2", "mkfs.ext2", none, none, true⟩
  else none

/-- Errors raised by the disk module: ValueError for an unsupported
filesystem, RuntimeError for non-FAT on macOS, a raised sh exception
when an invoked tool exits non-zero, and the RuntimeError raised when
the partition device never appears (the spec's DeviceNotReady). -/
inductive DiskError where
  | unsupportedFilesystem
  | runtimeNotFat
  | toolFailed
  | deviceNotReady
deriving DecidableEq

/-- get_fs_config (disk.py lines 53-58). -/
def get_fs_config (fs : String) : Except DiskError FsConfig :=
  match FS_CONFIG fs with
  | some cfg => .ok cfg
  | none => .error .unsupportedFilesystem

/-- Host platform branch taken on sys.platform. -/
inductive Platform where
  | linux
  | darwin
deriving DecidableEq

/-- One invoked shell command with its positional arguments. -/
structure ShCmd where
  prog : String
  args : List String
deriving DecidableEq

/-- Whether one character list starts with another. -/
def chListStarts : List Char → List Char → Bool
  | [], _ => true
  | _ :: _, [] => false
  | c :: cs, d :: ds => c = d && chListStarts cs ds

/-- Python str.startswith. -/
def pyStartsWith (s start : String) : Bool := chListStarts start.data s.data

/-- The state DiskImage.__init__ stores: path, size in bytes, sector
size; size_sectors is derived below exactly as on line 73. -/
structure DiskImage where
  image_path : String
  size_bytes : Nat
  sector_size : Nat
deriving DecidableEq

/-- size_sectors = (size_bytes + sector_size - 1) // sector_size. -/
def DiskImage.size_sectors (img : DiskImage) : Nat :=
  (img.size_bytes + img.sector_size - 1) / img.sector_size

/-- DiskImage.create (lines 78-81): opening with mode wb truncates
whatever was there, then size_sectors * sector_size zero bytes are
written; the resulting file content does not depend on the prior
content. -/
def DiskImage.create (img : DiskImage) (_prior : Option (List Nat)) : List Nat :=
  List.replicate (img.size_sectors * img.sector_size) 0

/-- DiskImage.create_partition_table (lines 83-105) as the list of
commands it issues.  Note the method never reads size_bytes or
size_sectors: no space check of any kind is performed. -/
def DiskImage.create_partition_table (img : DiskImage) (platform : Platform)
    (offset : Nat) (filesystem : String) : Except DiskError (List ShCmd) := do
  let fs_config ← get_fs_config filesystem
  match platform with
  | .darwin =>
    if ¬ pyStartsWith filesystem "fat" then .error .runtimeNotFat
    else
      .ok [⟨"sgdisk", ["--zap-all", img.image_path]⟩,
           ⟨"sgdisk", ["-o", img.image_path]⟩,
           ⟨"sgdisk", ["-n", "1:" ++ toString offset ++ ":0",
                       "-t", "1:0700", "-c", "1:VALKYRIE", img.image_path]⟩]
  | .linux =>
    .ok [⟨"parted", ["-s", img.image_path, "mklabel", "msdos"]⟩,
         ⟨"parted", ["-s", img.image_path, "mkpart", "primary",
                     fs_config.parted_type, toString offset ++ "s", "100%"]⟩,
         ⟨"parted", ["-s", img.image_path, "set", "1", "boot", "on"]⟩]

/-- The keyword arguments DiskImage.format_partition passes to the
formatting tool. -/
inductive FormatAction where
  | mkfsFat (path : String) (F : String) (n : String) (R : Nat) (offset : Nat)
  | mkfsExt2 (path : String) (L : String) (offsetBytes : Nat)
deriving DecidableEq

/-- The R argument handed to mkfs.fat, when the action is a FAT
format. -/
def FormatAction.reservedArg : FormatAction → Option Nat
  | .mkfsFat _ _ _ R _ => some R
  | .mkfsExt2 _ _ _ => none

/-- DiskImage.format_partition, Linux branch (lines 132-149): for FAT,
fat_reserved = reserved_sectors + 1, plus one more for fat32, passed
as R; for ext2 the byte offset offset * sector_size is passed;
anything else raises ValueError.  The darwin branch (lines 117-130)
shells out to hdiutil/newfs_msdos and is not modelled. -/
def DiskImage.format_partition (img : DiskImage) (filesystem : String)
    (offset : Nat) (reserved_sectors : Nat) (label : String) :
    Except DiskError FormatAction :=
  if pyStartsWith filesystem "fat" then
    .ok (.mkfsFat img.image_path (filesystem.drop 3) label
          (if filesystem = "fat32" then reserved_sectors + 1 + 1 else reserved_sectors + 1)
          offset)
  else if filesystem = "ext2" then
    .ok (.mkfsExt2 img.image_path label (offset * img.sector_size))
  else .error .unsupportedFilesystem

/-- Outcome of running format_partition with the single mkfs
invocation either succeeding or exiting non-zero (for example because
the tool rejects the volume label).  The Linux branch has no
try/except, so an sh exception from mkfs propagates out of the
method. -/
def run_format_partition (img : DiskImage) (filesystem : String)
    (offset : Nat) (reserved_sectors : Nat) (label : String)
    (mkfsRejectsLabel : Bool) : Except DiskError FormatAction := do
  let act ← img.format_partition filesystem offset reserved_sectors label
  if mkfsRejectsLabel then .error .toolFailed else .ok act

/-- Recursion of _wait_for_partition (lines 187-198): i is the index
of the next attempt, the second Nat the attempts remaining; on success
returns how many existence checks were performed. -/
def waitLoop (partitionAppears : Nat → Bool) : Nat → Nat → Except DiskError Nat
  | _, 0 => .error .deviceNotReady
  | i, k + 1 =>
    if partitionAppears i then .ok (i + 1) else waitLoop partitionAppears (i + 1) k

/-- _wait_for_partition with an explicit retry budget: up to
max_retries ls checks, sleeping between attempts, then the fatal
RuntimeError. -/
def wait_for_partition (partitionAppears : Nat → Bool) (max_retries : Nat) :
    Except DiskError Nat :=
  waitLoop partitionAppears 0 max_retries

/-- _wait_for_partition at its default budget max_retries = 10, as
called by DiskImage.mount. -/
def wait_for_partition_default (partitionAppears : Nat → Bool) :
    Except DiskError Nat :=
  wait_for_partition partitionAppears 10

/-- Environment for one run of DiskImage.mount on Linux: the loop
device losetup hands back, whether partprobe fails, at which attempts
the ls check for the partition node succeeds, and whether the final
mount command fails. -/
structure MountEnv where
  loopDevice : String
  partprobeFails : Bool
  partitionAppears : Nat → Bool
  mountCmdFails : Bool

/-- Externally visible resource state after DiskImage.mount returns or
raises: which loop device is still attached, whether the sidecar
device file was written, whether the partition is mounted. -/
structure MountState where
  attached : Option String
  deviceFileWritten : Bool
  mounted : Bool
deriving DecidableEq

/-- DiskImage.mount, Linux branch (lines 170-185), as result plus
final resource state.  The method body is a straight line with no
try/finally: losetup attaches, then partprobe, the partition wait, the
device-file write and the mount command run in order, and an exception
from any of them propagates with the loop device still attached. -/
def DiskImage.mount (_img : DiskImage) (env : MountEnv) :
    Except DiskError Unit × MountState :=
  if env.partprobeFails then
    (.error .toolFailed, ⟨some env.loopDevice, false, false⟩)
  else
    match wait_for_partition_default env.partitionAppears with
    | .error e => (.error e, ⟨some env.loopDevice, false, false⟩)
    | .ok _ =>
      if env.mountCmdFails then
        (.error .toolFailed, ⟨some env.loopDevice, true, false⟩)
      else
        (.ok (), ⟨some env.loopDevice, true, true⟩)

/-- Filesystem effects of copy_c_library. -/
inductive FileAction where
  | mkdir (p : String)
  | copy (src : String) (dst : String)
deriving DecidableEq

/-- os.path.join with the posix separator. -/
def path_join (a b : String) : String := a ++ "/" ++ b

/-- copy_c_library (lines 256-295) as the list of filesystem actions
it performs, with os.path.exists abstracted as fsExists and
arch_config['ld_musl_name'] passed as ld_name.  The dynamic-linker
name is materialized by an unconditional sudo cp of the copied libc.so
— a plain file copy, never a symlink and never an error. -/
def copy_c_library (fsExists : String → Bool) (mount_dir : String)
    (toolchain_root : String) (target_triple : String) (ld_name : String) :
    List FileAction :=
  let sysroot := path_join (path_join (path_join toolchain_root target_triple) "sysroot") "usr"
  if ¬ fsExists sysroot then []
  else
    let sysroot_lib := path_join sysroot "lib"
    let target_lib := path_join mount_dir "lib"
    if fsExists sysroot_lib then
      [FileAction.mkdir target_lib]
      ++ (if fsExists (path_join sysroot_lib "libc.so") then
            [FileAction.copy (path_join sysroot_lib "libc.so") target_lib]
          else [])
      ++ ((["Scrt1.o", "crt1.o", "crti.o", "crtn.o"].filter
            (fun f => fsExists (path_join sysroot_lib f))).map
            (fun f => FileAction.copy (path_join sysroot_lib f) target_lib))
      ++ [FileAction.copy (path_join target_lib "libc.so") (path_join target_lib ld_name)]
    else []

/-- Whether an Except value is a success. -/
def isOkE {ε α : Type} : Except ε α → Bool
  | .ok _ => true
  | .error _ => false

/-! Helper lemmas. -/

theorem waitLoop_error (f : Nat → Bool) :
    ∀ (k i : Nat), (∀ j, j < k → f (i + j) = false) →
      waitLoop f i k = .error .deviceNotReady := by
  intro k
  induction k with
  | zero => intro i _; rfl
  | succ k ih =>
    intro i h
    have h0 : f i = false := by simpa using h 0 (Nat.succ_pos k)
    simp only [waitLoop, h0, Bool.false_eq_true, if_false]
    exact ih (i + 1) (fun j hj => by
      have := h (j + 1) (Nat.succ_lt_succ hj)
      simpa [Nat.add_assoc, Nat.add_comm 1 j] using this)

theorem waitLoop_ok_first (f : Nat → Bool) :
    ∀ (k i j : Nat), j < k → f (i + j) = true → (∀ l, l < j → f (i + l) = false) →
      waitLoop f i k = .ok (i + j + 1) := by
  intro k
  induction k with
  | zero => intro i j hj; exact absurd hj (Nat.not_lt_zero j)
  | succ k ih =>
    intro i j hj hf hprev
    cases j with
    | zero =>
      have h0 : f i = true := by simpa using hf
      simp [waitLoop, h0]
    | succ j =>
      have h0 : f i = false := by simpa using hprev 0 (Nat.succ_pos j)
      simp only [waitLoop, h0, Bool.false_eq_true, if_false]
      have hrec := ih (i + 1) j (Nat.lt_of_succ_lt_succ hj)
        (by simpa [Nat.add_assoc, Nat.add_comm 1 j] using hf)
        (fun l hl => by
          have := hprev (l + 1) (Nat.succ_lt_succ hl)
          simpa [Nat.add_assoc, Nat.add_comm 1 l] using this)
      rw [hrec]
      congr 1
      omega

theorem waitLoop_ok_le (f : Nat → Bool) :
    ∀ (k i n : Nat), waitLoop f i k = .ok n → n ≤ i + k := by
  intro k
  induction k with
  | zero => intro i n h; exact absurd h (by simp [waitLoop])
  | succ k ih =>
    intro i n h
    by_cases hf : f i = true
    · simp [waitLoop, hf] at h
      omega
    · simp only [waitLoop, hf, if_false] at h
      have := ih (i + 1) n h
      omega

theorem pyInt_eq_floor (q : ℚ) (h : 0 ≤ q) : pyInt q = ⌊q⌋ := by
  rw [Rat.floor_def]
  exact Int.tdiv_eq_ediv (Rat.num_nonneg.mpr h) (Int.ofNat_nonneg q.den)

theorem val_nonneg (d : PyDecimal) : 0 ≤ d.val := by
  unfold PyDecimal.val
  positivity

theorem multValue_nonneg (o : Option Char) : 0 ≤ multValue o := by
  unfold multValue
  split <;> norm_num

theorem exactValue_nonneg (s : String) : 0 ≤ exactValue s :=
  mul_nonneg (val_nonneg (decimalOf (numTok s))) (multValue_nonneg (suffixChar (restTok s)))

theorem applyMult_k (d : PyDecimal) : applyMult d (some 'k') = decMul d 1024 := rfl

theorem applyMult_m (d : PyDecimal) : applyMult d (some 'm') = decMul d (1024 ^ 2) := rfl

theorem applyMult_g (d : PyDecimal) : applyMult d (some 'g') = decMul d (1024 ^ 3) := rfl

theorem applyMult_none (d : PyDecimal) : applyMult d none = d.val := rfl

theorem multValue_none : multValue none = 1 := rfl

theorem multValue_k : multValue (some 'k') = 1024 := rfl

theorem multValue_m : multValue (some 'm') = 1024 ^ 2 := rfl

theorem multValue_g : multValue (some 'g') = 1024 ^ 3 := rfl

theorem multNat_k : multNat (some 'k') = 1024 := rfl

theorem multNat_m : multNat (some 'm') = 1024 ^ 2 := rfl

theorem multNat_g : multNat (some 'g') = 1024 ^ 3 := rfl

theorem suffixChar_cons (c : Char) (cs : List Char) :
    suffixChar (c :: cs) =
      if pyLower c = 'k' ∨ pyLower c = 'm' ∨ pyLower c = 'g' then some (pyLower c)
      else none := rfl

theorem suffixChar_cases (rest : List Char) :
    suffixChar rest = none ∨ suffixChar rest = some 'k' ∨
    suffixChar rest = some 'm' ∨ suffixChar rest = some 'g' := by
  match rest with
  | [] => exact Or.inl rfl
  | c :: cs =>
    rw [suffixChar_cons]
    by_cases hk : pyLower c = 'k'
    · rw [if_pos (Or.inl hk), hk]
      exact Or.inr (Or.inl rfl)
    · by_cases hm : pyLower c = 'm'
      · rw [if_pos (Or.inr (Or.inl hm)), hm]
        exact Or.inr (Or.inr (Or.inl rfl))
      · by_cases hg : pyLower c = 'g'
        · rw [if_pos (Or.inr (Or.inr hg)), hg]
          exact Or.inr (Or.inr (Or.inr rfl))
        · rw [if_neg (by simp [hk, hm, hg])]
          exact Or.inl rfl

theorem decMul_exact (d : PyDecimal) (m : Nat) (h : d.coeff * m < 10 ^ 28) :
    decMul d m = d.val * (m : ℚ) := by
  unfold decMul PyDecimal.val
  rw [if_pos h]
  push_cast
  ring

theorem ParseSize_ok_eq (s : String) (z : ℤ) (h : ParseSize s = .ok z) :
    z = pyInt (parsedValue s) := by
  unfold ParseSize at h
  split_ifs at h
  injection h with h2
  rw [← h2, parsedValue]

theorem ParseSize_eval (s : String) (n f : Nat) (suf : Option Char)
    (h1 : ¬ (numTok s).length = 0) (h2 : decimalOk (numTok s) = true)
    (h3 : decimalOf (numTok s) = ⟨n, f⟩)
    (h4 : suffixChar (restTok s) = suf) :
    ParseSize s = .ok (pyInt (applyMult ⟨n, f⟩ suf)) := by
  unfold ParseSize
  rw [if_neg h1, if_pos h2, h3, h4]

theorem pyInt_intCast (z : ℤ) : pyInt ((z : ℚ)) = z := by
  unfold pyInt
  rw [Rat.num_intCast, Rat.den_intCast, Nat.cast_one]
  exact Int.tdiv_one z

theorem ParseSize_val (s : String) (n f : Nat) (suf : Option Char) (z : ℤ)
    (h1 : ¬ (numTok s).length = 0) (h2 : decimalOk (numTok s) = true)
    (h3 : decimalOf (numTok s) = ⟨n, f⟩)
    (h4 : suffixChar (restTok s) = suf)
    (h5 : applyMult ⟨n, f⟩ suf = ((z : ℚ))) :
    ParseSize s = .ok z := by
  rw [ParseSize_eval s n f suf h1 h2 h3 h4, h5, pyInt_intCast]

/-! Claim theorems. -/

/-- Claim C1, counterexample: on an image of 10 total sectors
(5120 bytes), create_partition_table with start offset 2048 — which is
at least total_sectors - 1 — does not fail with any InsufficientSpace
error: it succeeds and issues the three parted commands. -/
theorem c1_counterexample :
    (DiskImage.mk "test.img" 5120 512).size_sectors = 10 ∧
    (DiskImage.mk "test.img" 5120 512).size_sectors - 1 ≤ 2048 ∧
    (DiskImage.mk "test.img" 5120 512).create_partition_table .linux 2048 "fat32" =
      .ok [⟨"parted", ["-s", "test.img", "mklabel", "msdos"]⟩,
           ⟨"parted", ["-s", "test.img", "mkpart", "primary", "fat32", "2048s", "100%"]⟩,
           ⟨"parted", ["-s", "test.img", "set", "1", "boot", "on"]⟩] := by
  refine ⟨rfl, by norm_num [DiskImage.size_sectors], by decide⟩

/-- Claim C1, amended: create_partition_table performs no space
validation at all.  For every image (any size_bytes, any sector_size)
and every start offset, with a filesystem present in FS_CONFIG, the
Linux branch writes a partition table with exactly one partition,
marked bootable, spanning from the offset to the end of the disk
(100%); it never fails with InsufficientSpace, an error the module
does not have. -/
theorem c1_no_space_check (path fs : String) (cfg : FsConfig)
    (offset size_bytes sector_size : Nat) (h : FS_CONFIG fs = some cfg) :
    (DiskImage.mk path size_bytes sector_size).create_partition_table .linux offset fs =
      .ok [⟨"parted", ["-s", path, "mklabel", "msdos"]⟩,
           ⟨"parted", ["-s", path, "mkpart", "primary", cfg.parted_type,
                       toString offset ++ "s", "100%"]⟩,
           ⟨"parted", ["-s", path, "set", "1", "boot", "on"]⟩] := by
  unfold DiskImage.create_partition_table get_fs_config
  rw [h]
  rfl

/-- Witness for c1_no_space_check at a concrete input: a 10-sector
fat16 image partitioned at offset 4096. -/
theorem c1_witness :
    FS_CONFIG "fat16" = some ⟨"fat16", "mkfs.fat", some "16", some 1, false⟩ ∧
    (DiskImage.mk "test.img" 5120 512).create_partition_table .linux 4096 "fat16" =
      .ok [⟨"parted", ["-s", "test.img", "mklabel", "msdos"]⟩,
           ⟨"parted", ["-s", "test.img", "mkpart", "primary", "fat16", "4096s", "100%"]⟩,
           ⟨"parted", ["-s", "test.img", "set", "1", "boot", "on"]⟩] :=
  ⟨by decide,
   c1_no_space_check "test.img" "fat16" ⟨"fat16", "mkfs.fat", some "16", some 1, false⟩
     4096 5120 512 (by decide)⟩

/-- Claim C2, counterexample: a mount run in which the partition node
never appears fails, and when control returns the loop device is still
attached (and the sidecar device file was never written, so a later
unmount cannot even find it). -/
theorem c2_counterexample :
    ((DiskImage.mk "t.img" 67108864 512).mount
        ⟨"/dev/loop0", false, (fun _ => false), false⟩).1 = .error .deviceNotReady ∧
    ((DiskImage.mk "t.img" 67108864 512).mount
        ⟨"/dev/loop0", false, (fun _ => false), false⟩).2 = ⟨some "/dev/loop0", false, false⟩ := by
  exact ⟨rfl, rfl⟩

/-- Claim C2, amended: DiskImage.mount never releases the backing
device on any of its paths — the method has no try/finally, so on
every outcome (partprobe failure, partition wait exhaustion, mount
command failure, and also success) it returns with the loop device
still attached; release is deferred to the separate unmount
operation. -/
theorem c2_device_stays_attached (img : DiskImage) (env : MountEnv) :
    (img.mount env).2.attached = some env.loopDevice := by
  unfold DiskImage.mount
  split
  · rfl
  · split
    · rfl
    · split <;> rfl

/-- Claim C3: for every image, offset, label and non-negative
reserved_sectors input R, the Linux FAT formatting passes R + 1 as the
mkfs.fat R argument for fat12 and fat16 and R + 2 for fat32, so fat32
always reserves exactly one more sector than fat12/16 for the same
R. -/
theorem c3_fat_reserved (img : DiskImage) (offset R : Nat) (label : String) :
    img.format_partition "fat12" offset R label =
      .ok (.mkfsFat img.image_path "12" label (R + 1) offset) ∧
    img.format_partition "fat16" offset R label =
      .ok (.mkfsFat img.image_path "16" label (R + 1) offset) ∧
    img.format_partition "fat32" offset R label =
      .ok (.mkfsFat img.image_path "32" label (R + 1 + 1) offset) ∧
    FormatAction.reservedArg (.mkfsFat img.image_path "32" label (R + 1 + 1) offset) =
      (FormatAction.reservedArg (.mkfsFat img.image_path "12" label (R + 1) offset)).map
        (· + 1) :=
  ⟨rfl, rfl, rfl, rfl⟩

/-- Claim C4: ParseSize with exact decimal arithmetic returns 64 for
"64", 1024 for "1k", 1572864 for "1.5M", 2147483648 for "2G", with the
suffix accepted case-insensitively and no suffix meaning raw bytes. -/
theorem c4_parse_size_table :
    ParseSize "64" = .ok 64 ∧
    ParseSize "1k" = .ok 1024 ∧ ParseSize "1K" = .ok 1024 ∧
    ParseSize "1.5M" = .ok 1572864 ∧ ParseSize "1.5m" = .ok 1572864 ∧
    ParseSize "2G" = .ok 2147483648 ∧ ParseSize "2g" = .ok 2147483648 :=
  ⟨ParseSize_val "64" 64 0 none 64 (by decide) (by decide) (by decide) (by decide)
     (by rw [applyMult_none]; norm_num [PyDecimal.val]),
   ParseSize_val "1k" 1 0 (some 'k') 1024 (by decide) (by decide) (by decide) (by decide)
     (by rw [applyMult_k, decMul_exact _ _ (by decide)]; norm_num [PyDecimal.val]),
   ParseSize_val "1K" 1 0 (some 'k') 1024 (by decide) (by decide) (by decide) (by decide)
     (by rw [applyMult_k, decMul_exact _ _ (by decide)]; norm_num [PyDecimal.val]),
   ParseSize_val "1.5M" 15 1 (some 'm') 1572864 (by decide) (by decide) (by decide)
     (by decide)
     (by rw [applyMult_m, decMul_exact _ _ (by decide)]; norm_num [PyDecimal.val]),
   ParseSize_val "1.5m" 15 1 (some 'm') 1572864 (by decide) (by decide) (by decide)
     (by decide)
     (by rw [applyMult_m, decMul_exact _ _ (by decide)]; norm_num [PyDecimal.val]),
   ParseSize_val "2G" 2 0 (some 'g') 2147483648 (by decide) (by decide) (by decide)
     (by decide)
     (by rw [applyMult_g, decMul_exact _ _ (by decide)]; norm_num [PyDecimal.val]),
   ParseSize_val "2g" 2 0 (some 'g') 2147483648 (by decide) (by decide) (by decide)
     (by decide)
     (by rw [applyMult_g, decMul_exact _ _ (by decide)]; norm_num [PyDecimal.val])⟩

/-- Claim C5, counterexample: when mkfs.fat exits non-zero because it
rejects the volume label, format_partition does not catch the failure
and return successfully — the error propagates to the caller. -/
theorem c5_counterexample :
    run_format_partition (DiskImage.mk "t.img" 67108864 512) "fat32" 0 0
      "AVERYLONGLABEL" true = .error .toolFailed := by
  decide

/-- Claim C5, amended: the Linux branch of format_partition has no
try/except: whenever the single mkfs invocation fails (label rejection
included), the failure propagates and format_partition never returns
successfully — there is no tolerated non-fatal label error in this
revision. -/
theorem c5_label_failure_propagates (img : DiskImage) (filesystem : String)
    (offset R : Nat) (label : String) :
    isOkE (run_format_partition img filesystem offset R label true) = false := by
  unfold run_format_partition
  cases h : img.format_partition filesystem offset R label <;>
    simp [Bind.bind, Except.bind, isOkE, h]

/-- Claim C6, counterexample: the regex of ParseSize is not anchored
at the end of the string, so inputs with a non-suffix trailing part do
not fail: "64MB" parses as 64 mebibytes (the B is ignored) and "64xyz"
parses as 64 bytes. -/
theorem c6_counterexample :
    ParseSize "64MB" = .ok 67108864 ∧ ParseSize "64xyz" = .ok 64 :=
  ⟨ParseSize_val "64MB" 64 0 (some 'm') 67108864 (by decide) (by decide) (by decide)
     (by decide)
     (by rw [applyMult_m, decMul_exact _ _ (by decide)]; norm_num [PyDecimal.val]),
   ParseSize_val "64xyz" 64 0 none 64 (by decide) (by decide) (by decide) (by decide)
     (by rw [applyMult_none]; norm_num [PyDecimal.val])⟩

/-- Claim C6, amended: ParseSize fails only when the numeric part is
missing or malformed — a ValueError when the string does not start
with a digit or dot (such as "M64"), and a propagated
decimal.InvalidOperation when the leading [0-9.]+ token is not a valid
decimal (such as "1.2.3"); any trailing characters after the number
and the optional single suffix are ignored rather than rejected, so
"64MB" yields 67108864 and "64xyz" yields 64. -/
theorem c6_trailing_garbage_accepted :
    ParseSize "M64" = .error .invalidSize ∧
    ParseSize "1.2.3" = .error .invalidDecimal ∧
    ParseSize "64MB" = .ok 67108864 ∧
    ParseSize "64xyz" = .ok 64 ∧
    ∀ s : String, isOkE (ParseSize s) =
      (!decide ((numTok s).length = 0) && decimalOk (numTok s)) := by
  refine ⟨by decide, by decide,
    ParseSize_val "64MB" 64 0 (some 'm') 67108864 (by decide) (by decide) (by decide)
      (by decide)
      (by rw [applyMult_m, decMul_exact _ _ (by decide)]; norm_num [PyDecimal.val]),
    ParseSize_val "64xyz" 64 0 none 64 (by decide) (by decide) (by decide) (by decide)
      (by rw [applyMult_none]; norm_num [PyDecimal.val]), ?_⟩
  intro s
  unfold ParseSize isOkE
  by_cases h1 : (numTok s).length = 0
  · simp [h1]
  · by_cases h2 : decimalOk (numTok s) = true
    · simp [h1, h2]
    · simp [h1, h2]

/-- Claim C7: with sector size 512 and positive size_bytes, the
derived sector count is the ceiling of size_bytes / 512 (the least
sector count covering size_bytes), and create produces a file of
exactly size_sectors * 512 bytes, all zero, regardless of any prior
content at the path; size_bytes = 1048576 yields 2048 sectors and a
1048576-byte file. -/
theorem c7_create (path : String) (sb : Nat) (prior prior2 : Option (List Nat))
    (h : 0 < sb) :
    ((DiskImage.mk path sb 512).create prior).length =
      (DiskImage.mk path sb 512).size_sectors * 512 ∧
    (∀ b ∈ (DiskImage.mk path sb 512).create prior, b = 0) ∧
    (DiskImage.mk path sb 512).create prior = (DiskImage.mk path sb 512).create prior2 ∧
    0 < (DiskImage.mk path sb 512).size_sectors ∧
    sb ≤ (DiskImage.mk path sb 512).size_sectors * 512 ∧
    (DiskImage.mk path sb 512).size_sectors * 512 < sb + 512 ∧
    (DiskImage.mk path 1048576 512).size_sectors = 2048 ∧
    ((DiskImage.mk path 1048576 512).create prior).length = 1048576 := by
  refine ⟨?_, ?_, rfl, ?_, ?_, ?_, ?_, ?_⟩
  · simp [DiskImage.create]
  · intro b hb
    simp [DiskImage.create, List.mem_replicate] at hb
    exact hb.2
  · simp only [DiskImage.size_sectors]
    omega
  · simp only [DiskImage.size_sectors]
    omega
  · simp only [DiskImage.size_sectors]
    omega
  · norm_num [DiskImage.size_sectors]
  · norm_num [DiskImage.create, DiskImage.size_sectors]

/-- Witness for c7_create at the spec's concrete input. -/
theorem c7_witness :
    0 < 1048576 ∧
    ((DiskImage.mk "valkyrie.img" 1048576 512).create none).length = 1048576 :=
  ⟨by norm_num,
   (c7_create "valkyrie.img" 1048576 none none (by norm_num)).2.2.2.2.2.2.2⟩

/-- Claim C8: _wait_for_partition at its default budget performs at
most 10 existence checks with a fixed backoff between them: if the
node never appears in those 10 attempts it raises the fatal
device-not-ready error; if the node first appears at attempt i < 10 it
returns right there, after exactly i + 1 checks; and any successful
run used at most 10 checks. -/
theorem c8_wait_bounded :
    (∀ f : Nat → Bool, (∀ i, i < 10 → f i = false) →
      wait_for_partition_default f = .error .deviceNotReady) ∧
    (∀ (f : Nat → Bool) (i : Nat), i < 10 → f i = true →
      (∀ j, j < i → f j = false) → wait_for_partition_default f = .ok (i + 1)) ∧
    (∀ (f : Nat → Bool) (n : Nat), wait_for_partition_default f = .ok n → n ≤ 10) := by
  refine ⟨?_, ?_, ?_⟩
  · intro f h
    exact waitLoop_error f 10 0 (fun j hj => by simpa using h j hj)
  · intro f i hi hf hprev
    have hr := waitLoop_ok_first f 10 0 i hi (by simpa using hf)
      (fun l hl => by simpa using hprev l hl)
    simpa [wait_for_partition_default, wait_for_partition] using hr
  · intro f n h
    simpa using waitLoop_ok_le f 10 0 n h

/-- Witness for c8_wait_bounded: a node appearing at attempt 3 is
found after 4 checks. -/
theorem c8_witness :
    ((3 : Nat) < 10 ∧ (fun i => decide (i = 3)) 3 = true) ∧
    wait_for_partition_default (fun i => decide (i = 3)) = .ok 4 :=
  ⟨⟨by norm_num, by decide⟩,
   c8_wait_bounded.2.1 (fun i => decide (i = 3)) 3 (by norm_num) (by decide) (by decide)⟩

/-- Claim C9, counterexample: all FAT kinds have supports_symlinks
false, yet copy_c_library on such a target does not fail with any
UnsupportedFeature — with every path present it performs exactly these
actions, the last of which materializes the musl dynamic-linker name
as a regular-file copy of libc.so. -/
theorem c9_counterexample :
    (FS_CONFIG "fat12").map FsConfig.supports_symlinks = some false ∧
    (FS_CONFIG "fat16").map FsConfig.supports_symlinks = some false ∧
    (FS_CONFIG "fat32").map FsConfig.supports_symlinks = some false ∧
    copy_c_library (fun _ => true) "mnt" "tc" "i686-linux-musl" "ld-musl-i386.so.1" =
      [.mkdir "mnt/lib",
       .copy "tc/i686-linux-musl/sysroot/usr/lib/libc.so" "mnt/lib",
       .copy "tc/i686-linux-musl/sysroot/usr/lib/Scrt1.o" "mnt/lib",
       .copy "tc/i686-linux-musl/sysroot/usr/lib/crt1.o" "mnt/lib",
       .copy "tc/i686-linux-musl/sysroot/usr/lib/crti.o" "mnt/lib",
       .copy "tc/i686-linux-musl/sysroot/usr/lib/crtn.o" "mnt/lib",
       .copy "mnt/lib/libc.so" "mnt/lib/ld-musl-i386.so.1"] := by
  refine ⟨by decide, by decide, by decide, by decide⟩

/-- Claim C9, amended: FAT kinds do not support symlinks
(supports_symlinks = false throughout FS_CONFIG for them), and when
the toolchain sysroot and its lib directory exist, copy_c_library
silently materializes the dynamic-linker name as a regular-file copy
of the installed libc.so; it has no failing path and never raises
UnsupportedFeature. -/
theorem c9_symlink_copied (fsExists : String → Bool)
    (mount_dir toolchain_root target_triple ld_name : String)
    (h1 : fsExists (path_join (path_join (path_join toolchain_root target_triple)
      "sysroot") "usr") = true)
    (h2 : fsExists (path_join (path_join (path_join (path_join toolchain_root
      target_triple) "sysroot") "usr") "lib") = true) :
    FileAction.copy (path_join (path_join mount_dir "lib") "libc.so")
        (path_join (path_join mount_dir "lib") ld_name) ∈
      copy_c_library fsExists mount_dir toolchain_root target_triple ld_name ∧
    ∀ fs cfg, FS_CONFIG fs = some cfg → pyStartsWith fs "fat" = true →
      cfg.supports_symlinks = false := by
  constructor
  · simp [copy_c_library, h1, h2]
  · intro fs cfg hcfg hfat
    unfold FS_CONFIG at hcfg
    split_ifs at hcfg with e1 e2 e3 e4
    · injection hcfg with e
      rw [← e]
    · injection hcfg with e
      rw [← e]
    · injection hcfg with e
      rw [← e]
    · subst e4
      exact absurd hfat (by decide)

/-- Witness for c9_symlink_copied with every path present. -/
theorem c9_witness :
    ((fun _ : String => true)
       (path_join (path_join (path_join "tc" "i686-linux-musl") "sysroot") "usr") = true) ∧
    FileAction.copy (path_join (path_join "mnt" "lib") "libc.so")
        (path_join (path_join "mnt" "lib") "ld-musl-i386.so.1") ∈
      copy_c_library (fun _ => true) "mnt" "tc" "i686-linux-musl" "ld-musl-i386.so.1" :=
  ⟨rfl, (c9_symlink_copied (fun _ => true) "mnt" "tc" "i686-linux-musl"
    "ld-musl-i386.so.1" rfl rfl).1⟩

/-- Claim C10, counterexample: the Decimal multiply runs under the
default context and rounds its result to 28 significant digits half
to even, so a valid size string with a long numeric token can come out
above the floor of its exact value: "9999999999999999999999999999.3k"
has the non-integer exact value 10239999999999999999999999999283.2,
yet the program returns 10240000000000000000000000000000 — strictly
greater than the floor, so the result is not the exact product
truncated toward zero. -/
theorem c10_counterexample :
    ParseSize "9999999999999999999999999999.3k" =
      .ok 10240000000000000000000000000000 ∧
    ⌊exactValue "9999999999999999999999999999.3k"⌋ =
      10239999999999999999999999999283 ∧
    (10239999999999999999999999999283 : ℤ) < 10240000000000000000000000000000 := by
  refine ⟨?_, ?_, by norm_num⟩
  · refine ParseSize_val "9999999999999999999999999999.3k"
      99999999999999999999999999993 1 (some 'k') 10240000000000000000000000000000
      (by decide) (by decide) (by decide) (by decide) ?_
    rw [applyMult_k]
    unfold decMul
    rw [if_neg (by decide)]
    rw [(by decide :
      decDigits ((PyDecimal.mk 99999999999999999999999999993 1).coeff * 1024) - 28 = 5)]
    rw [(by decide :
      roundHalfEvenDiv ((PyDecimal.mk 99999999999999999999999999993 1).coeff * 1024) 5 =
        1024000000000000000000000000)]
    norm_num
  · unfold exactValue
    rw [(by decide : decimalOf (numTok "9999999999999999999999999999.3k") =
        ⟨99999999999999999999999999993, 1⟩),
      (by decide : suffixChar (restTok "9999999999999999999999999999.3k") = some 'k'),
      multValue_k]
    norm_num [PyDecimal.val]

/-- Claim C10, amended: int() truncation toward zero is the floor on
the non-negative values ParseSize handles, and whenever the Decimal
multiply stays inside the default context's 28 significant digits —
in particular whenever the coefficient-multiplier product is below
10^28, and always when there is no suffix to multiply by — every
successful parse returns exactly the floor of the exact decimal value,
never rounding up: "2.5" parses to 2 and "1.0005k" (exact value
1024.512) to 1024.  Only a suffixed token whose coefficient product
reaches 29 digits can be rounded above the exact value. -/
theorem c10_floor_within_context :
    (∀ q : ℚ, 0 ≤ q → pyInt q = ⌊q⌋) ∧
    (∀ (s : String) (z : ℤ), ParseSize s = .ok z →
      (decimalOf (numTok s)).coeff * multNat (suffixChar (restTok s)) < 10 ^ 28 →
      z = ⌊exactValue s⌋ ∧ ((z : ℚ)) ≤ exactValue s) ∧
    ParseSize "2.5" = .ok 2 ∧
    ParseSize "1.0005k" = .ok 1024 := by
  refine ⟨pyInt_eq_floor, ?_, ?_, ?_⟩
  · intro s z h hlt
    have hpe : parsedValue s = exactValue s := by
      unfold parsedValue exactValue
      rcases suffixChar_cases (restTok s) with hc | hc | hc | hc <;> rw [hc] <;>
        rw [hc] at hlt
      · rw [applyMult_none, multValue_none]
        ring
      · rw [multNat_k] at hlt
        rw [applyMult_k, decMul_exact _ _ hlt, multValue_k]
        norm_num
      · rw [multNat_m] at hlt
        rw [applyMult_m, decMul_exact _ _ hlt, multValue_m]
        norm_num
      · rw [multNat_g] at hlt
        rw [applyMult_g, decMul_exact _ _ hlt, multValue_g]
        norm_num
    have hz : z = ⌊exactValue s⌋ := by
      rw [ParseSize_ok_eq s z h, hpe, pyInt_eq_floor _ (exactValue_nonneg s)]
    exact ⟨hz, by rw [hz]; exact_mod_cast Int.floor_le (exactValue s)⟩
  · rw [ParseSize_eval "2.5" 25 1 none (by decide) (by decide) (by decide) (by decide),
      applyMult_none, pyInt_eq_floor _ (val_nonneg _)]
    norm_num [PyDecimal.val]
  · rw [ParseSize_eval "1.0005k" 10005 4 (some 'k') (by decide) (by decide) (by decide)
      (by decide), applyMult_k, decMul_exact _ _ (by decide),
      pyInt_eq_floor _ (mul_nonneg (val_nonneg _) (by positivity))]
    norm_num [PyDecimal.val]

/-- Witness for c10_floor_within_context at the fractional input
"2.5", whose coefficient product 25 is far inside the context
precision. -/
theorem c10_witness :
    ParseSize "2.5" = .ok 2 ∧
    (decimalOf (numTok "2.5")).coeff * multNat (suffixChar (restTok "2.5")) < 10 ^ 28 ∧
    (2 : ℤ) = ⌊exactValue "2.5"⌋ ∧ (((2 : ℤ) : ℚ)) ≤ exactValue "2.5" :=
  ⟨c10_floor_within_context.2.2.1, by decide,
   (c10_floor_within_context.2.1 "2.5" 2 c10_floor_within_context.2.2.1 (by decide)).1,
   (c10_floor_within_context.2.1 "2.5" 2 c10_floor_within_context.2.2.1 (by decide)).2⟩

end Valkyrie
